import Mathlib

/-!
Shallow embedding of the autonomous-agent workflow controller
(`agent/state_machine.py`) together with its data model (`models/*.py`)
and the mocked external tools (`tools/external_tools.py`).

Conventions of the embedding:
* Python floats carrying confidence values become exact rationals `ℚ`.
* `datetime.utcnow()` becomes an explicit `now : Nat` clock argument;
  every function that reads the clock in Python takes it as a parameter.
* Python exceptions (`RuntimeError`, `KeyError`, `StatisticsError`)
  become the `Except String` monad.
* Python `dict` comprehensions over sections become an association list
  with CPython semantics: insertion order preserved, a duplicate key
  overwrites the stored value in place (`dictInsert`).
-/

/-- Model of `models/agent.py` `AgentState`: lifecycle states of the workflow. -/
inductive AgentState where
  | planning
  | research
  | validation
  | human_review
  | synthesis
  | completed
  | failed
deriving DecidableEq, Repr

/-- Model of `models/research.py` `ToolName`. -/
inductive ToolName where
  | sensor_tower
  | sentiment_analysis
  | regulatory_check
deriving DecidableEq, Repr

/-- Model of `models/research.py` `ToolStatus`. -/
inductive ToolStatus where
  | success
  | empty
  | failed
deriving DecidableEq, Repr

/-- Model of `models/research.py` `ResearchDomain`. -/
inductive ResearchDomain where
  | market
  | audience
  | competition
  | regulation
deriving DecidableEq, Repr

/-- The `.value` string of the `ResearchDomain` str-enum. -/
def ResearchDomain.value : ResearchDomain → String
  | .market => "market"
  | .audience => "audience"
  | .competition => "competition"
  | .regulation => "regulation"

/-- The `.value` string of the `ValidationStatus`-like enums is not needed
elsewhere; payload values of the mocked tool dicts (flat JSON-ish data). -/
inductive PyVal where
  | s (v : String)
  | n (v : Int)
  | ls (v : List String)
deriving DecidableEq, Repr

/-- A Python dict payload returned by a tool adapter, as ordered key/value pairs. -/
abbrev Payload := List (String × PyVal)

/-- Model of `models/research.py` `ToolResult`. -/
structure ToolResult where
  tool_name : ToolName
  status : ToolStatus
  data : Option Payload
  error_message : Option String
  source : String
  collected_at : Nat
deriving DecidableEq, Repr

/-- Model of `models/research.py` `ResearchFinding`. -/
structure ResearchFinding where
  finding : String
  related_tools : List ToolName
  confidence : ℚ
  supporting_data : List ToolResult
deriving DecidableEq, Repr

/-- Model of `models/research.py` `ResearchSection`. -/
structure ResearchSection where
  domain : ResearchDomain
  findings : List ResearchFinding
  overall_confidence : ℚ
deriving DecidableEq, Repr

/-- Model of `models/research.py` `ResearchReport`. -/
structure ResearchReport where
  sections : List ResearchSection
  generated_at : Nat
deriving DecidableEq, Repr

/-- Model of `models/planning.py` `ResearchPlan`. -/
structure ResearchPlan where
  objective : String
  primary_app : String
  comparison_apps : List String
  regions : List String
  research_domains : List ResearchDomain
  tools : List ToolName
  minimum_section_confidence : ℚ
  minimum_overall_confidence : ℚ
  assumptions : List String
  created_at : Nat
  created_by : String
deriving DecidableEq, Repr

/-- Model of `models/validation.py` `ValidationStatus`. -/
inductive ValidationStatus where
  | pass
  | retry
  | human_review
  | fail
deriving DecidableEq, Repr

/-- Model of `models/validation.py` `ValidationIssue`. -/
structure ValidationIssue where
  level : String
  message : String
  related_section : String
deriving DecidableEq, Repr

/-- Model of `models/validation.py` `ValidationResult`. -/
structure ValidationResult where
  status : ValidationStatus
  issues : List ValidationIssue
  overall_confidence : ℚ
  validated_at : Nat
deriving DecidableEq, Repr

/-- Model of `models/agent.py` `HumanReviewDecision`. -/
structure HumanReviewDecision where
  approved : Bool
  reviewer : String
  notes : String
  decided_at : Nat
deriving DecidableEq, Repr

/-- Model of `models/agent.py` `AgentConfig`. -/
structure AgentConfig where
  max_research_retries : Int
  max_tool_retries : Int
  default_min_section_confidence : ℚ
  default_min_overall_confidence : ℚ
deriving DecidableEq, Repr

/-- Model of `models/agent.py` `AgentEvent`. -/
structure AgentEvent where
  state : AgentState
  message : String
  timestamp : Nat
  metadata : Option Payload
deriving DecidableEq, Repr

/-- Model of `models/mrd.py` `MRDMeta`. -/
structure MRDMeta where
  generated_at : Nat
  agent_version : String
  input_prompt : String
  target_regions : List String
  vertical : String
deriving DecidableEq, Repr

/-- Model of `models/mrd.py` `MarketTrend`. -/
structure MarketTrend where
  trend : String
  evidence : String
  confidence : ℚ
deriving DecidableEq, Repr

/-- Model of `models/mrd.py` `MarketState`. -/
structure MarketState where
  summary : String
  key_trends : List MarketTrend
  succeeding_players : List String
  struggling_players : List String
deriving DecidableEq, Repr

/-- Model of `models/mrd.py` `AudienceInsight`. -/
structure AudienceInsight where
  insight : String
  source : String
  confidence : ℚ
deriving DecidableEq, Repr

/-- Model of `models/mrd.py` `TargetAudience`. -/
structure TargetAudience where
  age_range : String
  primary_gender : Option String
  regions : List String
  behavioral_insights : List AudienceInsight
  acquisition_channels : List String
deriving DecidableEq, Repr

/-- Model of `models/mrd.py` `Competitor`. -/
structure Competitor where
  name : String
  category : String
  strengths : List String
  weaknesses : List String
  data_source : String
deriving DecidableEq, Repr

/-- Model of `models/mrd.py` `CompetitiveLandscape`. -/
structure CompetitiveLandscape where
  competitors : List Competitor
deriving DecidableEq, Repr

/-- Model of `models/mrd.py` `ProductGap`. -/
structure ProductGap where
  gap_description : String
  evidence : String
  opportunity_rationale : String
deriving DecidableEq, Repr

/-- Model of `models/mrd.py` `GapAnalysis`. -/
structure GapAnalysis where
  identified_gaps : List ProductGap
deriving DecidableEq, Repr

/-- Model of `models/mrd.py` `RegulatoryRegion`. -/
structure RegulatoryRegion where
  region : String
  legal_status : String
  constraints : List String
  confidence : ℚ
deriving DecidableEq, Repr

/-- Model of `models/mrd.py` `RegulatoryAnalysis`. -/
structure RegulatoryAnalysis where
  regions : List RegulatoryRegion
  open_risks : List String
deriving DecidableEq, Repr

/-- Model of `models/mrd.py` `FeatureRecommendation`. -/
structure FeatureRecommendation where
  feature : String
  priority : String
  justification : String
  dependencies : List String
deriving DecidableEq, Repr

/-- Model of `models/mrd.py` `StrategicRecommendations`. -/
structure StrategicRecommendations where
  features : List FeatureRecommendation
deriving DecidableEq, Repr

/-- Model of `models/mrd.py` `ConfidenceSummary`. -/
structure ConfidenceSummary where
  overall_confidence : ℚ
  weak_areas : List String
  recommended_next_steps : List String
deriving DecidableEq, Repr

/-- Model of `models/mrd.py` `MarketRequirementsDocument`. -/
structure MarketRequirementsDocument where
  meta : MRDMeta
  market_state : MarketState
  target_audience : TargetAudience
  competitive_landscape : CompetitiveLandscape
  gap_analysis : GapAnalysis
  regulatory_analysis : RegulatoryAnalysis
  strategic_recommendations : StrategicRecommendations
  confidence_summary : ConfidenceSummary
deriving DecidableEq, Repr

/-- Model of `models/agent.py` `AgentContext`. -/
structure AgentContext where
  user_input : String
  state : AgentState
  research_plan : Option ResearchPlan
  research_report : Option ResearchReport
  validation_result : Option ValidationResult
  human_review : Option HumanReviewDecision
  final_mrd : Option MarketRequirementsDocument
  research_retry_count : Int
  tool_retry_count : Int
  events : List AgentEvent
deriving DecidableEq, Repr

/-- Model of `tools/external_tools.py` `search_sensor_tower`. -/
def search_sensor_tower (app_name : String) : Payload :=
  [("downloads", .n 120000), ("growth_rate", .s "12%")]

/-- Model of `tools/external_tools.py` `analyze_sentiment`. -/
def analyze_sentiment (source : String) : Payload :=
  [("sentiment", .s "positive"), ("themes", .ls ["competition", "fast payouts"])]

/-- Model of `tools/external_tools.py` `check_regulatory_compliance`. -/
def check_regulatory_compliance (region : String) : Payload :=
  [("status", .s "conditionally_permitted"),
   ("notes", .s "Skill-based classification required")]

/-- Domain-keyed association list standing for the Python `dict`
`{section.domain: section for section in report.sections}`. -/
abbrev SectionMap := List (ResearchDomain × ResearchSection)

/-- Python `k in d` membership test on the section dict. -/
def dictContains : SectionMap → ResearchDomain → Bool
  | [], _ => false
  | p :: t, k => p.1 = k || dictContains t k

/-- One step of a CPython dict comprehension: a duplicate key overwrites
the stored value in place (insertion position kept), a fresh key is
appended at the end. -/
def dictInsert (m : SectionMap) (k : ResearchDomain) (v : ResearchSection) : SectionMap :=
  if dictContains m k then m.map (fun p => if p.1 = k then (k, v) else p)
  else m ++ [(k, v)]

/-- Python `d[k]` / `d.get(k)` on the section dict. -/
def dictGet : SectionMap → ResearchDomain → Option ResearchSection
  | [], _ => none
  | p :: t, k => if p.1 = k then some p.2 else dictGet t k

/-- Model of the dict comprehension over `report.sections`. -/
def buildSectionMap (sections : List ResearchSection) : SectionMap :=
  sections.foldl (fun m s => dictInsert m s.domain s) []

/-- Model of `statistics.mean` on rationals: raises `StatisticsError` on an empty
list, otherwise sum divided by length. -/
def Statistics.mean (l : List ℚ) : Except String ℚ :=
  if l.isEmpty then .error "StatisticsError: mean requires at least one data point"
  else .ok (l.sum / (l.length : ℚ))

/-- The issues collected by the missing-domain loop of
`_validate_research` (state_machine.py lines 311-319): one `error`
issue per occurrence of an uncovered required domain. -/
def missing_domain_issues (report : ResearchReport) (plan : ResearchPlan) : List ValidationIssue :=
  (plan.research_domains.filter
      (fun d => ¬ dictContains (buildSectionMap report.sections) d)).map
    (fun d =>
      { level := "error"
        message := "Missing required research domain: " ++ d.value
        related_section := d.value })

/-- The evidence issues collected by the per-section loop of
`_validate_research` (lines 332-346): for each section in dict order,
one `error` issue per finding with empty `supporting_data`. -/
def evidence_issues (section_map : SectionMap) : List ValidationIssue :=
  (section_map.map (fun p =>
    p.2.findings.filterMap (fun f =>
      if f.supporting_data.isEmpty then
        some { level := "error"
               message := "Finding has no supporting tool data"
               related_section := p.1.value }
      else none))).flatten

/-- Model of `AgentStateMachine._validate_research` (lines 289-371). -/
def _validate_research (report? : Option ResearchReport) (plan? : Option ResearchPlan)
    (now : Nat) : Except String ValidationResult :=
  match report?, plan? with
  | some report, some plan =>
    let section_map := buildSectionMap report.sections
    let missing := missing_domain_issues report plan
    if missing.isEmpty then
      let section_confidences := section_map.map (fun p => p.2.overall_confidence)
      let regulatory_confidence :=
        (dictGet section_map .regulation).map (fun s => s.overall_confidence)
      let issues := evidence_issues section_map
      match Statistics.mean section_confidences with
      | .error e => .error e
      | .ok overall_confidence =>
        match regulatory_confidence with
        | some rc =>
          if rc < 6/10 then
            .ok { status := .human_review, issues := issues
                  overall_confidence := overall_confidence, validated_at := now }
          else if overall_confidence < plan.minimum_overall_confidence then
            .ok { status := .retry, issues := issues
                  overall_confidence := overall_confidence, validated_at := now }
          else
            .ok { status := .pass, issues := issues
                  overall_confidence := overall_confidence, validated_at := now }
        | none =>
          if overall_confidence < plan.minimum_overall_confidence then
            .ok { status := .retry, issues := issues
                  overall_confidence := overall_confidence, validated_at := now }
          else
            .ok { status := .pass, issues := issues
                  overall_confidence := overall_confidence, validated_at := now }
    else
      .ok { status := .retry, issues := missing
            overall_confidence := 0, validated_at := now }
  | _, _ =>
    .ok { status := .fail
          issues := [{ level := "critical"
                       message := "Missing research report or research plan"
                       related_section := "system" }]
          overall_confidence := 0, validated_at := now }

/-- Model of `AgentStateMachine._create_research_plan` (lines 123-148). -/
def _create_research_plan (cfg : AgentConfig) (user_input : String) (now : Nat) : ResearchPlan :=
  { objective := user_input
    primary_app := "Triumph"
    comparison_apps := ["Skillz"]
    regions := ["UK", "EU"]
    research_domains := [.market, .audience, .competition, .regulation]
    tools := [.sensor_tower, .sentiment_analysis, .regulatory_check]
    minimum_section_confidence := cfg.default_min_section_confidence
    minimum_overall_confidence := cfg.default_min_overall_confidence
    assumptions :=
      ["The product operates under a skill-based gaming model",
       "Publicly available data reflects current market conditions"]
    created_at := now
    created_by := "agent" }

/-- Model of `tool_results[0]` of `_run_research` (lines 160-170). -/
def sensor_tool_result (plan : ResearchPlan) (now : Nat) : ToolResult :=
  { tool_name := .sensor_tower
    status := .success
    data := some (search_sensor_tower plan.primary_app)
    error_message := none
    source := "Sensor Tower (mocked)"
    collected_at := now }

/-- Model of `tool_results[1]` of `_run_research` (lines 172-182). -/
def sentiment_tool_result (now : Nat) : ToolResult :=
  { tool_name := .sentiment_analysis
    status := .success
    data := some (analyze_sentiment "TikTok")
    error_message := none
    source := "TikTok sentiment (mocked)"
    collected_at := now }

/-- Model of `tool_results[2]` of `_run_research` (lines 184-194). -/
def regulatory_tool_result (now : Nat) : ToolResult :=
  { tool_name := .regulatory_check
    status := .success
    data := some (check_regulatory_compliance "UK/EU")
    error_message := none
    source := "Regulatory DB (mocked)"
    collected_at := now }

/-- The `tool_results` list accumulated by `_run_research` (lines 158-194). -/
def research_tool_results (plan : ResearchPlan) (now : Nat) : List ToolResult :=
  [sensor_tool_result plan now, sentiment_tool_result now, regulatory_tool_result now]

/-- Model of `market_section` of `_run_research` (lines 196-207). -/
def market_section (plan : ResearchPlan) (now : Nat) : ResearchSection :=
  { domain := .market
    findings :=
      [{ finding := "Influencer-driven acquisition is outperforming paid channels"
         related_tools := [.sensor_tower]
         confidence := 8/10
         supporting_data := [sensor_tool_result plan now] }]
    overall_confidence := 8/10 }

/-- Model of `audience_section` of `_run_research` (lines 209-220). -/
def audience_section (now : Nat) : ResearchSection :=
  { domain := .audience
    findings :=
      [{ finding := "Young users engage more with short-session competitive games"
         related_tools := [.sentiment_analysis]
         confidence := 7/10
         supporting_data := [sentiment_tool_result now] }]
    overall_confidence := 7/10 }

/-- Model of `competition_section` of `_run_research` (lines 222-233). -/
def competition_section (plan : ResearchPlan) (now : Nat) : ResearchSection :=
  { domain := .competition
    findings :=
      [{ finding := "Competitors lack IO-style elimination game modes"
         related_tools := [.sensor_tower]
         confidence := 65/100
         supporting_data := [sensor_tool_result plan now] }]
    overall_confidence := 65/100 }

/-- Model of `regulation_section` of `_run_research` (lines 235-246). -/
def regulation_section (now : Nat) : ResearchSection :=
  { domain := .regulation
    findings :=
      [{ finding := "Skill-based gaming is conditionally permitted in UK/EU"
         related_tools := [.regulatory_check]
         confidence := 6/10
         supporting_data := [regulatory_tool_result now] }]
    overall_confidence := 6/10 }

/-- The `sections` list assembled by `_run_research` (lines 248-255). -/
def research_sections (plan : ResearchPlan) (now : Nat) : List ResearchSection :=
  [market_section plan now, audience_section now,
   competition_section plan now, regulation_section now]

/-- Model of `AgentStateMachine._run_research` (lines 150-260): raises when the
context has no plan, otherwise returns the fixed four-section report. -/
def _run_research (plan? : Option ResearchPlan) (now : Nat) : Except String ResearchReport :=
  match plan? with
  | none => .error "Research called without a research plan"
  | some plan => .ok { sections := research_sections plan now, generated_at := now }

/-- Model of `AgentStateMachine._get_human_decision` (lines 262-287). -/
def _get_human_decision (validation? : Option ValidationResult) (cfg : AgentConfig)
    (now : Nat) : Except String HumanReviewDecision :=
  match validation? with
  | none => .error "Human review requested without validation result"
  | some validation =>
    let has_critical_issues := validation.issues.any (fun issue => issue.level = "critical")
    let approved :=
      decide (validation.overall_confidence ≥ cfg.default_min_overall_confidence)
        && !has_critical_issues
    .ok { approved := approved
          reviewer := "simulated_human"
          notes :=
            if approved then
              "Approved based on sufficient confidence and no critical risks"
            else
              "Rejected due to low confidence or critical risks"
          decided_at := now }

/-- Model of `AgentStateMachine._synthesize_mrd` (lines 373-509): raises without
report or validation, raises `KeyError` when a domain section is
missing from the report dict, otherwise assembles the MRD. -/
def _synthesize_mrd (report? : Option ResearchReport) (validation? : Option ValidationResult)
    (user_input : String) (now : Nat) : Except String MarketRequirementsDocument :=
  match report?, validation? with
  | some report, some validation =>
    let section_map := buildSectionMap report.sections
    match dictGet section_map .market, dictGet section_map .audience,
        dictGet section_map .competition, dictGet section_map .regulation with
    | some ms, some aus, some cs, some rs =>
      let market_trends := ms.findings.map (fun finding =>
        MarketTrend.mk finding.finding
          (String.intercalate ", " (finding.supporting_data.map (fun tr => tr.source)))
          finding.confidence)
      let market_state : MarketState :=
        { summary := String.intercalate " " (ms.findings.map (fun f => f.finding))
          key_trends := market_trends
          succeeding_players := ["Triumph"]
          struggling_players := ["Skillz"] }
      let audience_insights := aus.findings.map (fun finding =>
        AudienceInsight.mk finding.finding
          (String.intercalate ", " (finding.supporting_data.map (fun tr => tr.source)))
          finding.confidence)
      let target_audience : TargetAudience :=
        { age_range := "18-30"
          primary_gender := some "Male"
          regions := ["UK", "EU"]
          behavioral_insights := audience_insights
          acquisition_channels := ["TikTok", "Influencer referrals"] }
      let competitors : List Competitor :=
        [{ name := "Triumph"
           category := "Skill-based real-money gaming"
           strengths := ["Fast games", "Influencer growth"]
           weaknesses := ["Limited game modes"]
           data_source := "Aggregated research findings" }]
      let competitive_landscape : CompetitiveLandscape := { competitors := competitors }
      let gaps := cs.findings.map (fun finding =>
        ProductGap.mk finding.finding
          (String.intercalate ", " (finding.supporting_data.map (fun tr => tr.source)))
          "Identified unmet opportunity")
      let gap_analysis : GapAnalysis := { identified_gaps := gaps }
      let regulatory_regions : List RegulatoryRegion :=
        [{ region := "UK/EU"
           legal_status := "Conditionally permitted"
           constraints := ["Age verification", "AML checks"]
           confidence := rs.overall_confidence }]
      let regulatory_analysis : RegulatoryAnalysis :=
        { regions := regulatory_regions
          open_risks := rs.findings.map (fun f => f.finding) }
      let features := gaps.map (fun gap =>
        FeatureRecommendation.mk gap.gap_description "High"
          "Derived from validated gap analysis" ["Real-time matchmaking"])
      let strategic_recommendations : StrategicRecommendations := { features := features }
      let confidence_summary : ConfidenceSummary :=
        { overall_confidence := validation.overall_confidence
          weak_areas := ["Regulatory clarity"]
          recommended_next_steps := ["Conduct legal review", "Pilot launch in UK"] }
      let meta : MRDMeta :=
        { generated_at := now
          agent_version := "0.1.0"
          input_prompt := user_input
          target_regions := ["UK", "EU"]
          vertical := "Real-money skill gaming" }
      .ok { meta := meta
            market_state := market_state
            target_audience := target_audience
            competitive_landscape := competitive_landscape
            gap_analysis := gap_analysis
            regulatory_analysis := regulatory_analysis
            strategic_recommendations := strategic_recommendations
            confidence_summary := confidence_summary }
    | _, _, _, _ => .error "KeyError: missing research domain section"
  | _, _ => .error "Synthesis called without validated research"

/-- Model of `AgentStateMachine._transition` (lines 66-75): append one audit
event carrying the new state, then set the context state. -/
def _transition (ctx : AgentContext) (new_state : AgentState) (message : String)
    (now : Nat) : AgentContext :=
  { ctx with
    events := ctx.events ++
      [{ state := new_state, message := message, timestamp := now, metadata := none }]
    state := new_state }

/-- Model of `AgentStateMachine._handle_planning` (lines 77-80). -/
def _handle_planning (cfg : AgentConfig) (ctx : AgentContext) (now : Nat) : AgentContext :=
  let plan := _create_research_plan cfg ctx.user_input now
  _transition { ctx with research_plan := some plan } .research "Research plan created" now

/-- Model of `AgentStateMachine._handle_research` (lines 82-90). -/
def _handle_research (cfg : AgentConfig) (ctx : AgentContext) (now : Nat) :
    Except String AgentContext :=
  if ctx.research_retry_count ≥ cfg.max_research_retries then
    .ok (_transition ctx .failed "Exceeded maximum research retries" now)
  else
    match _run_research ctx.research_plan now with
    | .error e => .error e
    | .ok report =>
      .ok (_transition
        { ctx with
          research_report := some report
          research_retry_count := ctx.research_retry_count + 1 }
        .validation "Research completed" now)

/-- Model of `AgentStateMachine._handle_validation` (lines 92-106). -/
def _handle_validation (ctx : AgentContext) (now : Nat) : Except String AgentContext :=
  match _validate_research ctx.research_report ctx.research_plan now with
  | .error e => .error e
  | .ok result =>
    let ctx1 := { ctx with validation_result := some result }
    if result.status = .pass then
      .ok (_transition ctx1 .synthesis "Validation passed" now)
    else if result.status = .retry then
      .ok (_transition ctx1 .research "Validation requested retry" now)
    else if result.status = .human_review then
      .ok (_transition ctx1 .human_review "Validation requires human review" now)
    else
      .ok (_transition ctx1 .failed "Validation failed" now)

/-- Model of `AgentStateMachine._handle_human_review` (lines 108-116). -/
def _handle_human_review (cfg : AgentConfig) (ctx : AgentContext) (now : Nat) :
    Except String AgentContext :=
  match _get_human_decision ctx.validation_result cfg now with
  | .error e => .error e
  | .ok decision =>
    let ctx1 := { ctx with human_review := some decision }
    if decision.approved then
      .ok (_transition ctx1 .synthesis "Human review approved" now)
    else
      .ok (_transition ctx1 .failed "Human review rejected" now)

/-- Model of `AgentStateMachine._handle_synthesis` (lines 118-121). -/
def _handle_synthesis (ctx : AgentContext) (now : Nat) : Except String AgentContext :=
  match _synthesize_mrd ctx.research_report ctx.validation_result ctx.user_input now with
  | .error e => .error e
  | .ok mrd =>
    .ok (_transition { ctx with final_mrd := some mrd } .completed
      "MRD synthesis completed" now)

/-- One iteration of the `run` while-loop body (lines 50-64): dispatch on
the current state.  On the terminal states the loop body is never entered;
we return the context unchanged. -/
def stepE (cfg : AgentConfig) (ctx : AgentContext) (now : Nat) : Except String AgentContext :=
  if ctx.state = .planning then .ok (_handle_planning cfg ctx now)
  else if ctx.state = .research then _handle_research cfg ctx now
  else if ctx.state = .validation then _handle_validation ctx now
  else if ctx.state = .human_review then _handle_human_review cfg ctx now
  else if ctx.state = .synthesis then _handle_synthesis ctx now
  else .ok ctx

/-- Model of `AgentStateMachine.run` (lines 49-64) with explicit fuel: iterate the
loop body while the state is not `completed`/`failed`; exceptions
propagate.  The remaining fuel doubles as the clock value handed to each
iteration. -/
def runFuelE (cfg : AgentConfig) : AgentContext → Nat → Except String AgentContext
  | ctx, 0 => .ok ctx
  | ctx, n + 1 =>
    if ctx.state = .completed ∨ ctx.state = .failed then .ok ctx
    else
      match stepE cfg ctx n with
      | .error e => .error e
      | .ok ctx1 => runFuelE cfg ctx1 n

/-- Rank of a workflow state in the termination measure. -/
def stateRank : AgentState → Nat
  | .planning => 5
  | .validation => 4
  | .research => 3
  | .human_review => 2
  | .synthesis => 1
  | .completed => 0
  | .failed => 0

/-- Termination measure for the run loop: retry headroom weighted by 3
plus the state rank.  It strictly decreases on every executed loop
iteration. -/
def meas (cfg : AgentConfig) (ctx : AgentContext) : Nat :=
  3 * (cfg.max_research_retries - ctx.research_retry_count).toNat + stateRank ctx.state

/-- The sequence of states the run passes through (the state after each
executed loop iteration), reading the same clock values as `runFuelE`. -/
def runTrace (cfg : AgentConfig) : AgentContext → Nat → List AgentState
  | _, 0 => []
  | ctx, n + 1 =>
    if ctx.state = .completed ∨ ctx.state = .failed then []
    else
      match stepE cfg ctx n with
      | .error _ => []
      | .ok ctx1 => ctx1.state :: runTrace cfg ctx1 n

/-- Run invariant relating any context reachable from `ctx0` back to the
fields a stage may rely on. -/
structure RunInv (ctx0 ctx : AgentContext) : Prop where
  input_eq : ctx.user_input = ctx0.user_input
  plan_some : ctx.state ≠ .planning → ctx.research_plan.isSome
  report_shape : (ctx.state = .validation ∨ ctx.state = .human_review ∨
      ctx.state = .synthesis ∨ ctx.state = .completed) →
    ∃ p t t1, ctx.research_report = some { sections := research_sections p t, generated_at := t1 }
  validation_some : (ctx.state = .human_review ∨ ctx.state = .synthesis ∨
      ctx.state = .completed) → ctx.validation_result.isSome
  mrd_frozen : ctx.state ≠ .completed → ctx.final_mrd = ctx0.final_mrd
  mrd_on_completed : ctx.state = .completed →
    ∃ t m, _synthesize_mrd ctx.research_report ctx.validation_result ctx.user_input t = .ok m ∧
      ctx.final_mrd = some m

/-- Plan used by the C4 counterexample: all four domains required,
zero overall threshold. -/
def c4_plan : ResearchPlan :=
  { objective := "objective"
    primary_app := "Triumph"
    comparison_apps := []
    regions := []
    research_domains := [.market, .audience, .competition, .regulation]
    tools := []
    minimum_section_confidence := 0
    minimum_overall_confidence := 0
    assumptions := []
    created_at := 0
    created_by := "agent" }

/-- Report used by the C4 counterexample: it contains a `Regulation`
section with confidence 0.5, followed by a second `Regulation` section
with confidence 0.9 that overwrites the first in the domain dict. -/
def c4_report : ResearchReport :=
  { sections :=
      [{ domain := .market, findings := [], overall_confidence := 8/10 },
       { domain := .audience, findings := [], overall_confidence := 7/10 },
       { domain := .competition, findings := [], overall_confidence := 65/100 },
       { domain := .regulation, findings := [], overall_confidence := 5/10 },
       { domain := .regulation, findings := [], overall_confidence := 9/10 }]
    generated_at := 0 }

/-- Forget the `meta.generated_at` timestamp of an MRD. -/
def eraseGeneratedAt (m : MarketRequirementsDocument) : MarketRequirementsDocument :=
  { m with meta := { m.meta with generated_at := 0 } }

/-- Concrete initial context used by witness instantiations
(mirrors `run_agent_test.py`). -/
def witness_context : AgentContext :=
  { user_input := "Build a skill-based gaming app"
    state := .planning
    research_plan := none
    research_report := none
    validation_result := none
    human_review := none
    final_mrd := none
    research_retry_count := 0
    tool_retry_count := 0
    events := [] }

/-- Concrete configuration used by witness instantiations
(mirrors `run_agent_test.py`). -/
def witness_config : AgentConfig :=
  { max_research_retries := 3
    max_tool_retries := 2
    default_min_section_confidence := 6/10
    default_min_overall_confidence := 65/100 }

/-- Concrete research plan used by witness instantiations. -/
def witness_plan : ResearchPlan :=
  _create_research_plan witness_config "Build a skill-based gaming app" 0

/-- Plan used by the C3 witness: requires all four domains. -/
def c3_plan : ResearchPlan :=
  { objective := "objective"
    primary_app := "Triumph"
    comparison_apps := []
    regions := []
    research_domains := [.market, .audience, .competition, .regulation]
    tools := []
    minimum_section_confidence := 6/10
    minimum_overall_confidence := 65/100
    assumptions := []
    created_at := 0
    created_by := "agent" }

/-- Report used by the C3 witness: the `Regulation` domain is missing. -/
def c3_report : ResearchReport :=
  { sections :=
      [{ domain := .market, findings := [], overall_confidence := 8/10 },
       { domain := .audience, findings := [], overall_confidence := 7/10 },
       { domain := .competition, findings := [], overall_confidence := 65/100 }]
    generated_at := 0 }

/-- Report used by the C4 witness: its last (only) `Regulation` section
has confidence 0.5. -/
def c4_witness_report : ResearchReport :=
  { sections :=
      [{ domain := .market, findings := [], overall_confidence := 8/10 },
       { domain := .audience, findings := [], overall_confidence := 7/10 },
       { domain := .competition, findings := [], overall_confidence := 65/100 },
       { domain := .regulation, findings := [], overall_confidence := 5/10 }]
    generated_at := 0 }

/-- Plan used by the C5 witness: requires two domains. -/
def c5_plan : ResearchPlan :=
  { objective := "objective"
    primary_app := "Triumph"
    comparison_apps := []
    regions := []
    research_domains := [.market, .audience]
    tools := []
    minimum_section_confidence := 6/10
    minimum_overall_confidence := 65/100
    assumptions := []
    created_at := 0
    created_by := "agent" }

/-- Report used by the C5 witness: two sections with distinct domains. -/
def c5_report : ResearchReport :=
  { sections :=
      [{ domain := .market, findings := [], overall_confidence := 8/10 },
       { domain := .audience, findings := [], overall_confidence := 6/10 }]
    generated_at := 0 }

/-- Validation result used by the C6 witness. -/
def c6_validation : ValidationResult :=
  { status := .human_review
    issues := [{ level := "warning", message := "m", related_section := "market" }]
    overall_confidence := 7/10
    validated_at := 0 }

/-- Report used by the C8 witness: the fixed report of the research stage. -/
def c8_report : ResearchReport :=
  { sections := research_sections witness_plan 0, generated_at := 0 }

/-- Validation result used by the C8 witness. -/
def c8_validation : ValidationResult :=
  { status := .pass, issues := [], overall_confidence := 11/16, validated_at := 0 }

theorem transition_state (ctx : AgentContext) (s msg now) :
    (_transition ctx s msg now).state = s := rfl

theorem transition_events (ctx : AgentContext) (s msg now) :
    (_transition ctx s msg now).events =
      ctx.events ++ [{ state := s, message := msg, timestamp := now, metadata := none }] := rfl

theorem transition_count (ctx : AgentContext) (s msg now) :
    (_transition ctx s msg now).research_retry_count = ctx.research_retry_count := rfl

theorem handle_research_cases {cfg : AgentConfig} {ctx : AgentContext} {now : Nat}
    {ctx1 : AgentContext} (h : _handle_research cfg ctx now = .ok ctx1) :
    (cfg.max_research_retries ≤ ctx.research_retry_count ∧
      ctx1 = _transition ctx .failed "Exceeded maximum research retries" now) ∨
    (ctx.research_retry_count < cfg.max_research_retries ∧ ∃ plan,
      ctx.research_plan = some plan ∧
      ctx1 = _transition
        { ctx with
          research_report :=
            some { sections := research_sections plan now, generated_at := now }
          research_retry_count := ctx.research_retry_count + 1 }
        .validation "Research completed" now) := by
  unfold _handle_research at h
  split at h
  · rename_i hge
    left
    refine ⟨by omega, ?_⟩
    cases h
    rfl
  · rename_i hlt
    right
    refine ⟨by omega, ?_⟩
    cases hp : ctx.research_plan with
    | none => rw [hp] at h; simp [_run_research] at h
    | some plan =>
      rw [hp] at h
      simp only [_run_research] at h
      cases h
      exact ⟨plan, rfl, rfl⟩

theorem handle_planning_eq (cfg : AgentConfig) (ctx : AgentContext) (now : Nat) :
    _handle_planning cfg ctx now =
      _transition
        { ctx with research_plan := some (_create_research_plan cfg ctx.user_input now) }
        .research "Research plan created" now := rfl

theorem handle_validation_cases {ctx : AgentContext} {now : Nat} {ctx1 : AgentContext}
    (h : _handle_validation ctx now = .ok ctx1) :
    ∃ result s msg,
      _validate_research ctx.research_report ctx.research_plan now = .ok result ∧
      (s = .synthesis ∨ s = .research ∨ s = .human_review ∨ s = .failed) ∧
      ctx1 = _transition { ctx with validation_result := some result } s msg now := by
  unfold _handle_validation at h
  cases hv : _validate_research ctx.research_report ctx.research_plan now with
  | error e => rw [hv] at h; cases h
  | ok result =>
    rw [hv] at h
    simp only at h
    split at h
    · exact ⟨result, .synthesis, _, rfl, by simp, by cases h; rfl⟩
    · split at h
      · exact ⟨result, .research, _, rfl, by simp, by cases h; rfl⟩
      · split at h
        · exact ⟨result, .human_review, _, rfl, by simp, by cases h; rfl⟩
        · exact ⟨result, .failed, _, rfl, by simp, by cases h; rfl⟩

theorem handle_human_review_cases {cfg : AgentConfig} {ctx : AgentContext} {now : Nat}
    {ctx1 : AgentContext} (h : _handle_human_review cfg ctx now = .ok ctx1) :
    ∃ decision s msg,
      _get_human_decision ctx.validation_result cfg now = .ok decision ∧
      (s = .synthesis ∨ s = .failed) ∧
      ctx1 = _transition { ctx with human_review := some decision } s msg now := by
  unfold _handle_human_review at h
  cases hd : _get_human_decision ctx.validation_result cfg now with
  | error e => rw [hd] at h; cases h
  | ok decision =>
    rw [hd] at h
    simp only at h
    split at h
    · exact ⟨decision, .synthesis, _, rfl, by simp, by cases h; rfl⟩
    · exact ⟨decision, .failed, _, rfl, by simp, by cases h; rfl⟩

theorem handle_synthesis_cases {ctx : AgentContext} {now : Nat} {ctx1 : AgentContext}
    (h : _handle_synthesis ctx now = .ok ctx1) :
    ∃ mrd,
      _synthesize_mrd ctx.research_report ctx.validation_result ctx.user_input now = .ok mrd ∧
      ctx1 = _transition { ctx with final_mrd := some mrd } .completed
        "MRD synthesis completed" now := by
  unfold _handle_synthesis at h
  cases hm : _synthesize_mrd ctx.research_report ctx.validation_result ctx.user_input now with
  | error e => rw [hm] at h; cases h
  | ok mrd =>
    rw [hm] at h
    simp only at h
    exact ⟨mrd, rfl, by cases h; rfl⟩

theorem stepE_planning {cfg ctx now} (hs : ctx.state = AgentState.planning) :
    stepE cfg ctx now = .ok (_handle_planning cfg ctx now) := by
  simp [stepE, hs]

theorem stepE_research {cfg ctx now} (hs : ctx.state = AgentState.research) :
    stepE cfg ctx now = _handle_research cfg ctx now := by
  simp [stepE, hs]

theorem stepE_validation {cfg ctx now} (hs : ctx.state = AgentState.validation) :
    stepE cfg ctx now = _handle_validation ctx now := by
  simp [stepE, hs]

theorem stepE_human_review {cfg ctx now} (hs : ctx.state = AgentState.human_review) :
    stepE cfg ctx now = _handle_human_review cfg ctx now := by
  simp [stepE, hs]

theorem stepE_synthesis {cfg ctx now} (hs : ctx.state = AgentState.synthesis) :
    stepE cfg ctx now = _handle_synthesis ctx now := by
  simp [stepE, hs]

theorem buildSectionMap_fixed (plan : ResearchPlan) (t : Nat) :
    buildSectionMap (research_sections plan t) =
      [(.market, market_section plan t), (.audience, audience_section t),
       (.competition, competition_section plan t), (.regulation, regulation_section t)] := rfl

theorem dictContains_fixed (plan : ResearchPlan) (t : Nat) (d : ResearchDomain) :
    dictContains (buildSectionMap (research_sections plan t)) d = true := by
  cases d <;> rfl

theorem missing_fixed (plan0 plan : ResearchPlan) (t1 t : Nat) :
    missing_domain_issues { sections := research_sections plan0 t, generated_at := t1 } plan = [] := by
  unfold missing_domain_issues
  rw [List.map_eq_nil, List.filter_eq_nil]
  intro d _
  simp [dictContains_fixed]

theorem dictGet_fixed_market (plan : ResearchPlan) (t : Nat) :
    dictGet (buildSectionMap (research_sections plan t)) .market = some (market_section plan t) := rfl

theorem dictGet_fixed_audience (plan : ResearchPlan) (t : Nat) :
    dictGet (buildSectionMap (research_sections plan t)) .audience = some (audience_section t) := rfl

theorem dictGet_fixed_competition (plan : ResearchPlan) (t : Nat) :
    dictGet (buildSectionMap (research_sections plan t)) .competition =
      some (competition_section plan t) := rfl

theorem dictGet_fixed_regulation (plan : ResearchPlan) (t : Nat) :
    dictGet (buildSectionMap (research_sections plan t)) .regulation =
      some (regulation_section t) := rfl

theorem mean_fixed (plan0 : ResearchPlan) (t : Nat) :
    Statistics.mean
        ((buildSectionMap (research_sections plan0 t)).map (fun p => p.2.overall_confidence)) =
      .ok (11/16) := by
  simp [buildSectionMap_fixed, Statistics.mean, market_section, audience_section,
    competition_section, regulation_section]
  norm_num

theorem evidence_fixed (plan0 : ResearchPlan) (t : Nat) :
    evidence_issues (buildSectionMap (research_sections plan0 t)) = [] := by
  rfl

theorem validate_fixed (plan0 plan : ResearchPlan) (t1 t now : Nat) :
    _validate_research (some { sections := research_sections plan0 t, generated_at := t1 })
        (some plan) now =
      .ok { status := if (11/16 : ℚ) < plan.minimum_overall_confidence then .retry else .pass
            issues := []
            overall_confidence := 11/16
            validated_at := now } := by
  unfold _validate_research
  simp only [missing_fixed, List.isEmpty_nil, if_true, mean_fixed, evidence_fixed,
    dictGet_fixed_regulation, Option.map_some, regulation_section]
  norm_num
  split <;> rfl

theorem synthesize_fixed_ok (p : ResearchPlan) (t t1 now : Nat) (v : ValidationResult)
    (u : String) :
    ∃ m, _synthesize_mrd (some { sections := research_sections p t, generated_at := t1 })
      (some v) u now = .ok m := ⟨_, rfl⟩

theorem get_human_decision_ok (v : ValidationResult) (cfg : AgentConfig) (now : Nat) :
    ∃ d, _get_human_decision (some v) cfg now = .ok d := ⟨_, rfl⟩

theorem inv_step {cfg : AgentConfig} {ctx0 ctx : AgentContext} {now : Nat}
    (hI : RunInv ctx0 ctx) (h1 : ctx.state ≠ .completed) (h2 : ctx.state ≠ .failed) :
    ∃ ctx1, stepE cfg ctx now = .ok ctx1 ∧ RunInv ctx0 ctx1 ∧ meas cfg ctx1 < meas cfg ctx := by
  cases hs : ctx.state with
  | completed => exact absurd hs h1
  | failed => exact absurd hs h2
  | planning =>
    refine ⟨_, stepE_planning hs, ?_, ?_⟩
    · constructor
      · exact hI.input_eq
      · intro _; rfl
      · intro h; simp [_handle_planning, _transition] at h
      · intro h; simp [_handle_planning, _transition] at h
      · intro _
        have := hI.mrd_frozen (by rw [hs]; intro h; cases h)
        simpa [_handle_planning, _transition] using this
      · intro h; simp [_handle_planning, _transition] at h
    · simp [_handle_planning, _transition, meas, stateRank, hs]
  | research =>
    obtain ⟨plan, hp⟩ := Option.isSome_iff_exists.mp (hI.plan_some (by rw [hs]; intro h; cases h))
    rw [stepE_research hs]
    unfold _handle_research
    split
    · rename_i hge
      refine ⟨_, rfl, ?_, ?_⟩
      · constructor
        · exact hI.input_eq
        · intro _; simp [_transition, hp]
        · intro h; simp [_transition] at h
        · intro h; simp [_transition] at h
        · intro _
          have := hI.mrd_frozen (by rw [hs]; intro h; cases h)
          simpa [_transition] using this
        · intro h; simp [_transition] at h
      · simp [_transition, meas, stateRank, hs]
    · rename_i hlt
      rw [hp]
      simp only [_run_research]
      refine ⟨_, rfl, ?_, ?_⟩
      · constructor
        · exact hI.input_eq
        · intro _; simp [_transition]
        · intro _
          exact ⟨plan, now, now, by simp [_transition]⟩
        · intro h; simp [_transition] at h
        · intro _
          have := hI.mrd_frozen (by rw [hs]; intro h; cases h)
          simpa [_transition] using this
        · intro h; simp [_transition] at h
      · simp only [_transition, meas, stateRank, hs]
        omega
  | validation =>
    obtain ⟨plan, hpl⟩ :=
      Option.isSome_iff_exists.mp (hI.plan_some (by rw [hs]; intro h; cases h))
    obtain ⟨p, t, t1, hr⟩ := hI.report_shape (Or.inl hs)
    rw [stepE_validation hs]
    unfold _handle_validation
    rw [hr, hpl, validate_fixed]
    by_cases hc : (11/16 : ℚ) < plan.minimum_overall_confidence
    · simp only [hc, if_true, if_pos]
      simp only [reduceCtorEq, if_false, if_true]
      refine ⟨_, rfl, ?_, ?_⟩
      · constructor
        · exact hI.input_eq
        · intro _; simp [_transition, hpl]
        · intro h; simp [_transition] at h
        · intro h; simp [_transition] at h
        · intro _
          have := hI.mrd_frozen (by rw [hs]; intro h; cases h)
          simpa [_transition] using this
        · intro h; simp [_transition] at h
      · simp only [_transition, meas, stateRank, hs]
        omega
    · simp only [hc, if_false, if_true]
      refine ⟨_, rfl, ?_, ?_⟩
      · constructor
        · exact hI.input_eq
        · intro _; simp [_transition, hpl]
        · intro _; exact ⟨p, t, t1, by simp [_transition, hr]⟩
        · intro _; simp [_transition]
        · intro _
          have := hI.mrd_frozen (by rw [hs]; intro h; cases h)
          simpa [_transition] using this
        · intro h; simp [_transition] at h
      · simp only [_transition, meas, stateRank, hs]
        omega
  | human_review =>
    have hplan := hI.plan_some (by rw [hs]; intro h; cases h)
    obtain ⟨v, hv⟩ := Option.isSome_iff_exists.mp (hI.validation_some (Or.inl hs))
    obtain ⟨p, t, t1, hr⟩ := hI.report_shape (Or.inr (Or.inl hs))
    rw [stepE_human_review hs]
    unfold _handle_human_review
    rw [hv]
    simp only [_get_human_decision]
    split
    · refine ⟨_, rfl, ?_, ?_⟩
      · constructor
        · exact hI.input_eq
        · intro _; simpa [_transition] using hplan
        · intro _; exact ⟨p, t, t1, by simp [_transition, hr]⟩
        · intro _; simp [_transition, hv]
        · intro _
          have := hI.mrd_frozen (by rw [hs]; intro h; cases h)
          simpa [_transition] using this
        · intro h; simp [_transition] at h
      · simp only [_transition, meas, stateRank, hs]
        omega
    · refine ⟨_, rfl, ?_, ?_⟩
      · constructor
        · exact hI.input_eq
        · intro _; simpa [_transition] using hplan
        · intro h; simp [_transition] at h
        · intro h; simp [_transition] at h
        · intro _
          have := hI.mrd_frozen (by rw [hs]; intro h; cases h)
          simpa [_transition] using this
        · intro h; simp [_transition] at h
      · simp only [_transition, meas, stateRank, hs]
        omega
  | synthesis =>
    have hplan := hI.plan_some (by rw [hs]; intro h; cases h)
    obtain ⟨v, hv⟩ := Option.isSome_iff_exists.mp (hI.validation_some (Or.inr (Or.inl hs)))
    obtain ⟨p, t, t1, hr⟩ := hI.report_shape (Or.inr (Or.inr (Or.inl hs)))
    obtain ⟨m, hm⟩ := synthesize_fixed_ok p t t1 now v ctx.user_input
    rw [stepE_synthesis hs]
    unfold _handle_synthesis
    rw [hr, hv, hm]
    refine ⟨_, rfl, ?_, ?_⟩
    · constructor
      · exact hI.input_eq
      · intro _; simpa [_transition] using hplan
      · intro _; exact ⟨p, t, t1, by simp [_transition, hr]⟩
      · intro _; simp [_transition, hv]
      · intro h; simp [_transition] at h
      · intro _
        refine ⟨now, m, ?_, by simp [_transition]⟩
        simpa [_transition] using hm
    · simp only [_transition, meas, stateRank, hs]
      omega

theorem runInv_init {ctx0 : AgentContext} (hs : ctx0.state = .planning) : RunInv ctx0 ctx0 := by
  constructor
  · rfl
  · intro h; exact absurd hs h
  · intro h; rw [hs] at h; rcases h with h | h | h | h <;> cases h
  · intro h; rw [hs] at h; rcases h with h | h | h <;> cases h
  · intro _; rfl
  · intro h; rw [h] at hs; cases hs

theorem runFuelE_inv (cfg : AgentConfig) (ctx0 : AgentContext) :
    ∀ (n : Nat) (ctx : AgentContext), RunInv ctx0 ctx →
      ∃ ctx1, runFuelE cfg ctx n = .ok ctx1 ∧ RunInv ctx0 ctx1
  | 0, ctx, hI => ⟨ctx, rfl, hI⟩
  | n + 1, ctx, hI => by
    unfold runFuelE
    split
    · exact ⟨ctx, rfl, hI⟩
    · rename_i hterm
      push_neg at hterm
      obtain ⟨ctx1, hstep, hI1, _⟩ := inv_step hI hterm.1 hterm.2
      rw [hstep]
      exact runFuelE_inv cfg ctx0 n ctx1 hI1

theorem runFuelE_terminal_of_meas (cfg : AgentConfig) (ctx0 : AgentContext) :
    ∀ (n : Nat) (ctx : AgentContext), RunInv ctx0 ctx → meas cfg ctx ≤ n →
      ∃ ctx1, runFuelE cfg ctx n = .ok ctx1 ∧ RunInv ctx0 ctx1 ∧
        (ctx1.state = .completed ∨ ctx1.state = .failed)
  | 0, ctx, hI, hm => by
    refine ⟨ctx, rfl, hI, ?_⟩
    have hr : stateRank ctx.state = 0 := by unfold meas at hm; omega
    cases hcs : ctx.state
    all_goals (rw [hcs] at hr; simp [stateRank] at hr)
    · exact Or.inl rfl
    · exact Or.inr rfl
  | n + 1, ctx, hI, hm => by
    unfold runFuelE
    split
    · rename_i hterm; exact ⟨ctx, rfl, hI, hterm⟩
    · rename_i hterm
      push_neg at hterm
      obtain ⟨ctx1, hstep, hI1, hlt⟩ := inv_step hI hterm.1 hterm.2
      rw [hstep]
      exact runFuelE_terminal_of_meas cfg ctx0 n ctx1 hI1 (by omega)

theorem runFuelE_pres (cfg : AgentConfig) (P : AgentContext → Prop)
    (hstep : ∀ ctx now ctx1, P ctx → stepE cfg ctx now = .ok ctx1 → P ctx1) :
    ∀ (n : Nat) (ctx ctx1 : AgentContext), P ctx → runFuelE cfg ctx n = .ok ctx1 → P ctx1
  | 0, _, _, hP, h => by cases h; exact hP
  | n + 1, ctx, ctx1, hP, h => by
    unfold runFuelE at h
    split at h
    · cases h; exact hP
    · cases hst : stepE cfg ctx n with
      | error e => rw [hst] at h; cases h
      | ok ctx2 =>
        rw [hst] at h
        exact runFuelE_pres cfg P hstep n ctx2 ctx1 (hstep ctx n ctx2 hP hst) h

theorem stepE_count_le {cfg : AgentConfig} {ctx : AgentContext} {now : Nat}
    {ctx1 : AgentContext} (h : stepE cfg ctx now = .ok ctx1)
    (hle : ctx.research_retry_count ≤ cfg.max_research_retries) :
    ctx1.research_retry_count ≤ cfg.max_research_retries := by
  unfold stepE at h
  split at h
  · cases h; simpa [_handle_planning, _transition] using hle
  · split at h
    · rcases handle_research_cases h with ⟨hge, rfl⟩ | ⟨hlt, plan, hp, rfl⟩
      · simpa [_transition] using hle
      · simp only [_transition]
        omega
    · split at h
      · obtain ⟨result, s, msg, hv, hss, rfl⟩ := handle_validation_cases h
        simpa [_transition] using hle
      · split at h
        · obtain ⟨d, s, msg, hd, hss, rfl⟩ := handle_human_review_cases h
          simpa [_transition] using hle
        · split at h
          · obtain ⟨m, hm, rfl⟩ := handle_synthesis_cases h
            simpa [_transition] using hle
          · cases h; exact hle

theorem stepE_events {cfg : AgentConfig} {ctx : AgentContext} {now : Nat} {ctx1 : AgentContext}
    (h1 : ctx.state ≠ .completed) (h2 : ctx.state ≠ .failed)
    (h : stepE cfg ctx now = .ok ctx1) :
    ∃ e : AgentEvent, ctx1.events = ctx.events ++ [e] ∧ e.state = ctx1.state := by
  unfold stepE at h
  split at h
  · cases h
    exact ⟨⟨.research, "Research plan created", now, none⟩,
      by simp [_handle_planning, _transition], rfl⟩
  · split at h
    · rcases handle_research_cases h with ⟨hge, rfl⟩ | ⟨hlt, plan, hp, rfl⟩
      · exact ⟨⟨.failed, "Exceeded maximum research retries", now, none⟩,
          by simp [_transition], rfl⟩
      · exact ⟨⟨.validation, "Research completed", now, none⟩,
          by simp [_transition], rfl⟩
    · split at h
      · obtain ⟨result, s, msg, hv, hss, rfl⟩ := handle_validation_cases h
        exact ⟨⟨s, msg, now, none⟩, by simp [_transition], rfl⟩
      · split at h
        · obtain ⟨d, s, msg, hd, hss, rfl⟩ := handle_human_review_cases h
          exact ⟨⟨s, msg, now, none⟩, by simp [_transition], rfl⟩
        · split at h
          · obtain ⟨m, hm, rfl⟩ := handle_synthesis_cases h
            exact ⟨⟨.completed, "MRD synthesis completed", now, none⟩,
              by simp [_transition], rfl⟩
          · rename_i hnp hnr hnv hnh hns
            cases hcs : ctx.state <;> simp_all

theorem runFuelE_events_trace (cfg : AgentConfig) :
    ∀ (n : Nat) (ctx ctx1 : AgentContext), runFuelE cfg ctx n = .ok ctx1 →
      ctx1.events.map (fun e => e.state) =
        ctx.events.map (fun e => e.state) ++ runTrace cfg ctx n
  | 0, ctx, ctx1, h => by cases h; simp [runTrace]
  | n + 1, ctx, ctx1, h => by
    unfold runFuelE at h
    unfold runTrace
    split at h
    · rename_i hterm
      cases h
      rw [if_pos hterm]
      simp
    · rename_i hterm
      rw [if_neg hterm]
      cases hst : stepE cfg ctx n with
      | error e => rw [hst] at h; cases h
      | ok ctx2 =>
        rw [hst] at h
        have ih := runFuelE_events_trace cfg n ctx2 ctx1 h
        push_neg at hterm
        obtain ⟨e, he, hes⟩ := stepE_events hterm.1 hterm.2 hst
        simp only [ih, he]
        simp [hes]

theorem dictGet_map_replace (t : SectionMap) (k k1 : ResearchDomain) (v : ResearchSection) :
    dictGet (t.map (fun p => if p.1 = k then (k, v) else p)) k1 =
      if k1 = k then (if dictContains t k then some v else none)
      else dictGet t k1 := by
  induction t with
  | nil => by_cases hk : k1 = k <;> simp [dictGet, dictContains, hk]
  | cons p t ih =>
    by_cases hp : p.1 = k
    · by_cases hk : k1 = k
      · subst hk
        simp [dictGet, dictContains, hp, ih]
      · have hpk1 : ¬ p.1 = k1 := by rw [hp]; exact Ne.symm hk
        simp [dictGet, dictContains, hp, hk, Ne.symm hk, hpk1, ih]
    · by_cases hk : k1 = k
      · subst hk
        simp [dictGet, dictContains, hp, ih]
      · by_cases hpk1 : p.1 = k1 <;> simp [dictGet, dictContains, hp, hk, hpk1, ih]

theorem dictGet_dictInsert (m : SectionMap) (k k1 : ResearchDomain) (v : ResearchSection) :
    dictGet (dictInsert m k v) k1 = if k1 = k then some v else dictGet m k1 := by
  unfold dictInsert
  split
  · rename_i hc
    rw [dictGet_map_replace]
    simp [hc]
  · rename_i hc
    induction m with
    | nil =>
      by_cases hk : k1 = k
      · subst hk; simp [dictGet]
      · simp [dictGet, hk, Ne.symm hk]
    | cons p t ih =>
      have hc1 : ¬ dictContains t k = true := by
        intro h
        exact hc (by simp [dictContains, h])
      have hpk : ¬ p.1 = k := by
        intro h
        exact hc (by simp [dictContains, h])
      by_cases hpk1 : p.1 = k1
      · have hk : ¬ k1 = k := fun he => hpk (hpk1.trans he)
        simp [dictGet, hpk1, hk]
      · simp only [List.cons_append, dictGet, if_neg hpk1]
        exact ih hc1

theorem dictContains_append (m1 m2 : SectionMap) (k : ResearchDomain) :
    dictContains (m1 ++ m2) k = (dictContains m1 k || dictContains m2 k) := by
  induction m1 with
  | nil => simp [dictContains]
  | cons p t ih => simp [dictContains, ih, Bool.or_assoc]

theorem dictGet_foldl_insert :
    ∀ (l : List ResearchSection) (acc : SectionMap) (d : ResearchDomain),
      dictGet (l.foldl (fun m s => dictInsert m s.domain s) acc) d =
        ((l.filter (fun s => s.domain = d)).getLast?).or (dictGet acc d)
  | [], acc, d => by simp [Option.or]
  | s :: t, acc, d => by
    simp only [List.foldl_cons, List.filter_cons]
    rw [dictGet_foldl_insert t (dictInsert acc s.domain s) d, dictGet_dictInsert]
    by_cases hs : s.domain = d
    · rw [if_pos hs.symm]
      simp only [hs, decide_True, if_true]
      rw [List.getLast?_cons]
      cases hl : (t.filter (fun s => s.domain = d)).getLast? <;> simp [Option.or, hl]
    · rw [if_neg (Ne.symm hs)]
      simp [hs]

theorem dictGet_build_getLast (l : List ResearchSection) (d : ResearchDomain) :
    dictGet (buildSectionMap l) d = (l.filter (fun s => s.domain = d)).getLast? := by
  unfold buildSectionMap
  rw [dictGet_foldl_insert]
  cases hl : (l.filter (fun s => s.domain = d)).getLast? <;> simp [Option.or, dictGet]

theorem foldl_insert_of_disjoint :
    ∀ (l : List ResearchSection) (acc : SectionMap),
      (∀ s ∈ l, dictContains acc s.domain = false) →
      l.Pairwise (fun a b => a.domain ≠ b.domain) →
      l.foldl (fun m s => dictInsert m s.domain s) acc = acc ++ l.map (fun s => (s.domain, s))
  | [], acc, _, _ => by simp
  | s :: t, acc, hdisj, hnd => by
    obtain ⟨hhead, htail⟩ := List.pairwise_cons.mp hnd
    simp only [List.foldl_cons, List.map_cons]
    have hcs : dictContains acc s.domain = false := hdisj s (by simp)
    have hins : dictInsert acc s.domain s = acc ++ [(s.domain, s)] := by
      unfold dictInsert
      rw [hcs]
      simp
    rw [hins, foldl_insert_of_disjoint t (acc ++ [(s.domain, s)]) ?_ htail]
    · simp
    · intro u hu
      rw [dictContains_append]
      have h1 : dictContains acc u.domain = false := hdisj u (List.mem_cons_of_mem s hu)
      have h2 : dictContains [(s.domain, s)] u.domain = false := by
        simp [dictContains, hhead u hu]
      simp [h1, h2]

theorem buildSectionMap_nodup (l : List ResearchSection)
    (hnd : l.Pairwise (fun a b => a.domain ≠ b.domain)) :
    buildSectionMap l = l.map (fun s => (s.domain, s)) := by
  unfold buildSectionMap
  rw [foldl_insert_of_disjoint l [] (fun s _ => rfl) hnd]
  simp

theorem mean_of_ne_nil (l : List ℚ) (h : l ≠ []) :
    Statistics.mean l = .ok (l.sum / (l.length : ℚ)) := by
  unfold Statistics.mean
  rw [if_neg]
  simp [List.isEmpty_iff, h]

/-- C3: a plan-required domain absent from the report forces a `retry`
verdict with zero confidence and one `error` issue per missing required
domain, never `pass` or `fail`. -/
theorem missing_domain_yields_retry (report : ResearchReport) (plan : ResearchPlan)
    (now : Nat) (d : ResearchDomain) (hd : d ∈ plan.research_domains)
    (hmiss : dictContains (buildSectionMap report.sections) d = false) :
    ∃ res, _validate_research (some report) (some plan) now = .ok res ∧
      res.status = .retry ∧ res.status ≠ .pass ∧ res.status ≠ .fail ∧
      res.overall_confidence = 0 ∧
      (∀ issue ∈ res.issues, issue.level = "error") ∧
      res.issues.length = (plan.research_domains.filter
        (fun d0 => ¬ dictContains (buildSectionMap report.sections) d0)).length ∧
      0 < res.issues.length := by
  have hdf : d ∈ plan.research_domains.filter
      (fun d0 => ¬ dictContains (buildSectionMap report.sections) d0) :=
    List.mem_filter.mpr ⟨hd, by simp [hmiss]⟩
  have hne : missing_domain_issues report plan ≠ [] := by
    unfold missing_domain_issues
    intro h
    rw [List.map_eq_nil_iff] at h
    rw [h] at hdf
    cases hdf
  have hEmpty : (missing_domain_issues report plan).isEmpty = false := by
    simpa [List.isEmpty_iff] using hne
  simp only [_validate_research, hEmpty, Bool.false_eq_true, if_false]
  refine ⟨_, rfl, ?_, ?_, ?_, ?_, ?_, ?_, ?_⟩
  · rfl
  · intro h; cases h
  · intro h; cases h
  · rfl
  · intro issue hmem
    obtain ⟨d0, _, rfl⟩ := List.mem_map.mp hmem
    rfl
  · simp only [missing_domain_issues]
    exact List.length_map _ _
  · show 0 < (missing_domain_issues report plan).length
    rw [List.length_pos]
    exact hne

/-- Closed form of `_validate_research` when report and plan are present
and every required domain is covered: the confidence is the mean over the
section dict and the status follows the regulatory gate then the
threshold test. -/
theorem validate_covered (report : ResearchReport) (plan : ResearchPlan) (now : Nat)
    (hcov : missing_domain_issues report plan = [])
    (hme : buildSectionMap report.sections ≠ []) :
    _validate_research (some report) (some plan) now =
      .ok { status :=
              match (dictGet (buildSectionMap report.sections) .regulation).map
                  (fun s => s.overall_confidence) with
              | some rc =>
                if rc < 6/10 then .human_review
                else if ((buildSectionMap report.sections).map
                      (fun p => p.2.overall_confidence)).sum /
                    ((buildSectionMap report.sections).length : ℚ) <
                    plan.minimum_overall_confidence then .retry
                else .pass
              | none =>
                if ((buildSectionMap report.sections).map
                      (fun p => p.2.overall_confidence)).sum /
                    ((buildSectionMap report.sections).length : ℚ) <
                    plan.minimum_overall_confidence then .retry
                else .pass
            issues := evidence_issues (buildSectionMap report.sections)
            overall_confidence := ((buildSectionMap report.sections).map
                (fun p => p.2.overall_confidence)).sum /
              ((buildSectionMap report.sections).length : ℚ)
            validated_at := now } := by
  have hEmpty : (missing_domain_issues report plan).isEmpty = true := by simp [hcov]
  have hcne : (buildSectionMap report.sections).map (fun p => p.2.overall_confidence) ≠ [] := by
    simpa using hme
  simp only [_validate_research, hEmpty, if_true]
  rw [mean_of_ne_nil _ hcne]
  simp only [List.length_map]
  cases (dictGet (buildSectionMap report.sections) ResearchDomain.regulation).map
      (fun s => s.overall_confidence) with
  | none =>
    by_cases hlt : ((buildSectionMap report.sections).map
          (fun p => p.2.overall_confidence)).sum /
        ((buildSectionMap report.sections).length : ℚ) <
        plan.minimum_overall_confidence <;>
      simp [hlt]
  | some rc =>
    by_cases hrc : rc < 6/10
    · simp [hrc]
    · by_cases hlt : ((buildSectionMap report.sections).map
            (fun p => p.2.overall_confidence)).sum /
          ((buildSectionMap report.sections).length : ℚ) <
          plan.minimum_overall_confidence <;>
        simp [hrc, hlt]

/-- C5: with all required domains covered and pairwise-distinct section
domains, the reported confidence is the unweighted arithmetic mean of the
section confidences, and it is this value that decides `retry` versus
`pass`. -/
theorem overall_confidence_unweighted_mean (report : ResearchReport) (plan : ResearchPlan)
    (now : Nat)
    (hnd : report.sections.Pairwise (fun a b => a.domain ≠ b.domain))
    (hcov : missing_domain_issues report plan = [])
    (hne : report.sections ≠ []) :
    ∃ res, _validate_research (some report) (some plan) now = .ok res ∧
      res.overall_confidence =
        (report.sections.map (fun s => s.overall_confidence)).sum /
          (report.sections.length : ℚ) ∧
      ((res.status = .retry ∨ res.status = .pass) →
        (res.status = .retry ↔
          res.overall_confidence < plan.minimum_overall_confidence)) := by
  have hmap : buildSectionMap report.sections = report.sections.map (fun s => (s.domain, s)) :=
    buildSectionMap_nodup _ hnd
  have hconfs : (buildSectionMap report.sections).map (fun p => p.2.overall_confidence) =
      report.sections.map (fun s => s.overall_confidence) := by
    rw [hmap, List.map_map]
    rfl
  have hlen : ((buildSectionMap report.sections).length : ℚ) = (report.sections.length : ℚ) := by
    rw [hmap, List.length_map]
  have hme : buildSectionMap report.sections ≠ [] := by
    rw [hmap]
    simpa using hne
  rw [validate_covered report plan now hcov hme]
  rw [hconfs, hlen]
  refine ⟨_, rfl, rfl, ?_⟩
  cases (dictGet (buildSectionMap report.sections) ResearchDomain.regulation).map
      (fun s => s.overall_confidence) with
  | none =>
    by_cases hlt : (report.sections.map (fun s => s.overall_confidence)).sum /
        (report.sections.length : ℚ) < plan.minimum_overall_confidence <;>
      simp [hlt]
  | some rc =>
    by_cases hrc : rc < 6/10
    · simp [hrc]
    · by_cases hlt : (report.sections.map (fun s => s.overall_confidence)).sum /
          (report.sections.length : ℚ) < plan.minimum_overall_confidence <;>
        simp [hrc, hlt]

/-- C6: the simulated reviewer approves exactly when the validation
confidence reaches the configured minimum and no issue is `critical`;
the notes are one of two fixed strings chosen by the outcome. -/
theorem reviewer_approval_iff (v : ValidationResult) (cfg : AgentConfig) (now : Nat) :
    ∃ d, _get_human_decision (some v) cfg now = .ok d ∧
      (d.approved = true ↔ (cfg.default_min_overall_confidence ≤ v.overall_confidence ∧
        ∀ issue ∈ v.issues, issue.level ≠ "critical")) ∧
      d.notes = (if d.approved then
          "Approved based on sufficient confidence and no critical risks"
        else "Rejected due to low confidence or critical risks") ∧
      d.reviewer = "simulated_human" := by
  refine ⟨_, rfl, ?_, rfl, rfl⟩
  simp only [_get_human_decision, Bool.and_eq_true, decide_eq_true_eq, Bool.not_eq_true']
  constructor
  · rintro ⟨h1, h2⟩
    refine ⟨h1, ?_⟩
    intro issue hmem heq
    rw [List.any_eq_false] at h2
    have hcontr := h2 issue hmem
    simp [heq] at hcontr
  · rintro ⟨h1, h2⟩
    refine ⟨h1, ?_⟩
    rw [List.any_eq_false]
    intro issue hmem
    simpa using h2 issue hmem

/-- C4 (amended): with all required domains covered, if the last
`Regulation` section of the report (the one retained by the domain
dict) has confidence below 0.6, validation returns `human_review`
regardless of the other sections and collected issues. -/
theorem regulation_gate_last_section (report : ResearchReport) (plan : ResearchPlan)
    (now : Nat) (rs : ResearchSection)
    (hcov : missing_domain_issues report plan = [])
    (hlast : (report.sections.filter
      (fun s => s.domain = ResearchDomain.regulation)).getLast? = some rs)
    (hconf : rs.overall_confidence < 6/10) :
    ∃ res, _validate_research (some report) (some plan) now = .ok res ∧
      res.status = .human_review := by
  have hget : dictGet (buildSectionMap report.sections) .regulation = some rs := by
    rw [dictGet_build_getLast]
    exact hlast
  have hme : buildSectionMap report.sections ≠ [] := by
    intro h
    rw [h] at hget
    simp [dictGet] at hget
  rw [validate_covered report plan now hcov hme]
  refine ⟨_, rfl, ?_⟩
  simp [hget, hconf]

/-- C4 counterexample: the report contains a `Regulation` section with
confidence 0.5 < 0.6 and covers every required domain, yet the validator
returns `pass`, not `human_review`. -/
theorem regulation_gate_counterexample :
    c4_report.sections.any (fun s => decide (s.domain = ResearchDomain.regulation) &&
        decide (s.overall_confidence < 6/10)) = true ∧
    (∀ d, dictContains (buildSectionMap c4_report.sections) d = true) ∧
    (_validate_research (some c4_report) (some c4_plan) 0).map ValidationResult.status =
      .ok ValidationStatus.pass := by
  refine ⟨?_, ?_, ?_⟩
  · norm_num [c4_report]
  · intro d
    cases d <;> rfl
  · rw [validate_covered c4_report c4_plan 0 rfl (by decide)]
    have hget : dictGet (buildSectionMap c4_report.sections) ResearchDomain.regulation =
        some { domain := .regulation, findings := [], overall_confidence := 9/10 } := rfl
    have hconfs : (buildSectionMap c4_report.sections).map
        (fun p => p.2.overall_confidence) = [8/10, 7/10, 65/100, 9/10] := rfl
    have hlen : ((buildSectionMap c4_report.sections).length : ℚ) = 4 := rfl
    simp only [Except.map, hget, hconfs, hlen, Option.map_some, c4_plan]
    norm_num

/-- C8: synthesis is deterministic up to the `meta.generated_at`
timestamp, and the gap list has one entry per `Competition` finding
(description = finding text) feeding 1:1 into feature recommendations
(feature = gap description). -/
theorem synthesis_deterministic :
    (∀ (report? : Option ResearchReport) (validation? : Option ValidationResult)
        (u : String) (t1 t2 : Nat),
      (_synthesize_mrd report? validation? u t1).map eraseGeneratedAt =
        (_synthesize_mrd report? validation? u t2).map eraseGeneratedAt) ∧
    (∀ (report : ResearchReport) (validation : ValidationResult) (u : String) (t : Nat)
        (cs : ResearchSection),
      dictGet (buildSectionMap report.sections) .competition = some cs →
      (_synthesize_mrd (some report) (some validation) u t).isOk = true →
      (_synthesize_mrd (some report) (some validation) u t).map
          (fun m => m.gap_analysis.identified_gaps.map (fun g => g.gap_description)) =
        .ok (cs.findings.map (fun f => f.finding)) ∧
      (_synthesize_mrd (some report) (some validation) u t).map
          (fun m => m.strategic_recommendations.features.map (fun fr => fr.feature)) =
        .ok (cs.findings.map (fun f => f.finding)) ∧
      (_synthesize_mrd (some report) (some validation) u t).map
          (fun m => (m.gap_analysis.identified_gaps.length,
            m.strategic_recommendations.features.length)) =
        .ok (cs.findings.length, cs.findings.length)) := by
  constructor
  · intro report? validation? u t1 t2
    cases report? with
    | none => rfl
    | some report =>
      cases validation? with
      | none => rfl
      | some validation =>
        simp only [_synthesize_mrd]
        cases dictGet (buildSectionMap report.sections) ResearchDomain.market <;>
          cases dictGet (buildSectionMap report.sections) ResearchDomain.audience <;>
            cases dictGet (buildSectionMap report.sections) ResearchDomain.competition <;>
              cases dictGet (buildSectionMap report.sections) ResearchDomain.regulation <;>
                rfl
  · intro report validation u t cs hcs hok
    cases hm : dictGet (buildSectionMap report.sections) ResearchDomain.market with
    | none => simp [_synthesize_mrd, hm, hcs, Except.isOk, Except.toBool] at hok
    | some ms =>
      cases ha : dictGet (buildSectionMap report.sections) ResearchDomain.audience with
      | none => simp [_synthesize_mrd, hm, ha, hcs, Except.isOk, Except.toBool] at hok
      | some aus =>
        cases hr : dictGet (buildSectionMap report.sections) ResearchDomain.regulation with
        | none => simp [_synthesize_mrd, hm, ha, hcs, hr, Except.isOk, Except.toBool] at hok
        | some rs =>
          refine ⟨?_, ?_, ?_⟩ <;>
            simp [_synthesize_mrd, hm, ha, hcs, hr, Except.map, List.map_map, Function.comp]

/-- C9: every tool result produced by the research stage is recorded with
`success` status, no error message, and carries exactly the payload the
adapter returned; the mocked adapters cannot report failure, so no failed
adapter call is ever wrapped (vacuously, none is upgraded to success). -/
theorem tool_results_reflect_adapter (plan : ResearchPlan) (now : Nat) :
    (∀ r ∈ research_tool_results plan now, r.status = ToolStatus.success ∧
      r.error_message = none ∧ r.data.isSome = true) ∧
    (sensor_tool_result plan now).data = some (search_sensor_tower plan.primary_app) ∧
    (sentiment_tool_result now).data = some (analyze_sentiment "TikTok") ∧
    (regulatory_tool_result now).data = some (check_regulatory_compliance "UK/EU") ∧
    (∀ report, _run_research (some plan) now = .ok report →
      ∀ sec ∈ report.sections, ∀ f ∈ sec.findings, ∀ r ∈ f.supporting_data,
        r.status = ToolStatus.success ∧ r.error_message = none ∧ r.data.isSome = true) := by
  refine ⟨?_, rfl, rfl, rfl, ?_⟩
  · intro r hr
    simp only [research_tool_results, List.mem_cons, List.not_mem_nil, or_false] at hr
    rcases hr with rfl | rfl | rfl <;> exact ⟨rfl, rfl, rfl⟩
  · intro report hrep sec hsec f hf r hr
    have hrep1 : report = { sections := research_sections plan now, generated_at := now } := by
      cases hrep
      rfl
    subst hrep1
    simp only [research_sections, market_section, audience_section, competition_section,
      regulation_section, List.mem_cons, List.not_mem_nil, or_false] at hsec
    rcases hsec with rfl | rfl | rfl | rfl <;>
      (simp only [List.mem_cons, List.not_mem_nil, or_false] at hf; subst hf;
       simp only [List.mem_cons, List.not_mem_nil, or_false] at hr; subst hr;
       exact ⟨rfl, rfl, rfl⟩)

/-- C1: starting a run in `Planning` with a zero retry counter and a
non-negative budget, the retry counter never exceeds
`max_research_retries` at any point of the run; the research handler
either moves to `Failed` without touching the counter (budget exhausted)
or increments it by exactly one after storing the produced report. -/
theorem retry_counter_bounded (cfg : AgentConfig) (ctx0 : AgentContext)
    (hs : ctx0.state = .planning) (h0 : ctx0.research_retry_count = 0)
    (hm : 0 ≤ cfg.max_research_retries) :
    (∀ (n : Nat) (ctx1 : AgentContext), runFuelE cfg ctx0 n = .ok ctx1 →
      ctx1.research_retry_count ≤ cfg.max_research_retries) ∧
    (∀ (ctx : AgentContext) (now : Nat),
      ctx.research_retry_count ≥ cfg.max_research_retries →
      _handle_research cfg ctx now = .ok (_transition ctx .failed
        "Exceeded maximum research retries" now) ∧
      (_transition ctx .failed "Exceeded maximum research retries" now).state = .failed ∧
      (_transition ctx .failed "Exceeded maximum research retries"
        now).research_retry_count = ctx.research_retry_count) ∧
    (∀ (ctx : AgentContext) (now : Nat) (ctx1 : AgentContext),
      ctx.research_retry_count < cfg.max_research_retries →
      _handle_research cfg ctx now = .ok ctx1 →
      ctx1.research_retry_count = ctx.research_retry_count + 1 ∧
      ctx1.research_report.isSome = true) := by
  refine ⟨?_, ?_, ?_⟩
  · intro n ctx1 hrun
    exact runFuelE_pres cfg (fun c => c.research_retry_count ≤ cfg.max_research_retries)
      (fun ctx now ctx2 hP hst => stepE_count_le hst hP) n ctx0 ctx1 (by omega) hrun
  · intro ctx now hge
    refine ⟨?_, rfl, rfl⟩
    unfold _handle_research
    rw [if_pos hge]
  · intro ctx now ctx1 hlt hok
    rcases handle_research_cases hok with ⟨hge, rfl⟩ | ⟨_, plan, hp, rfl⟩
    · omega
    · exact ⟨rfl, by simp [_transition]⟩

/-- C2: from any `Planning` context the run loop reaches a terminal
state within `meas` steps, the terminal state is `Completed` or
`Failed`, on `Completed` the final MRD is exactly the synthesized
document, and a `Failed` run leaves `final_mrd` untouched. -/
theorem run_reaches_terminal (cfg : AgentConfig) (ctx0 : AgentContext)
    (hs : ctx0.state = .planning) (hm : 0 ≤ cfg.max_research_retries) :
    ∃ ctx1, runFuelE cfg ctx0 (meas cfg ctx0) = .ok ctx1 ∧
      (ctx1.state = .completed ∨ ctx1.state = .failed) ∧
      (ctx1.state = .completed →
        ∃ t m, _synthesize_mrd ctx1.research_report ctx1.validation_result
            ctx1.user_input t = .ok m ∧ ctx1.final_mrd = some m) ∧
      (ctx1.state = .failed → ctx1.final_mrd = ctx0.final_mrd) := by
  obtain ⟨ctx1, hrun, hI, hterm⟩ :=
    runFuelE_terminal_of_meas cfg ctx0 (meas cfg ctx0) ctx0 (runInv_init hs) le_rfl
  refine ⟨ctx1, hrun, hterm, hI.mrd_on_completed, ?_⟩
  intro hf
  exact hI.mrd_frozen (by rw [hf]; intro h; cases h)

/-- C7: every executed loop iteration appends exactly one audit event
whose recorded state is the context state right after the transition,
and over a whole run the audit log in order is exactly the sequence of
states the run passed through. -/
theorem audit_log_mirrors_transitions :
    (∀ (cfg : AgentConfig) (ctx : AgentContext) (now : Nat) (ctx1 : AgentContext),
      ctx.state ≠ .completed → ctx.state ≠ .failed → stepE cfg ctx now = .ok ctx1 →
      ∃ e : AgentEvent, ctx1.events = ctx.events ++ [e] ∧ e.state = ctx1.state) ∧
    (∀ (cfg : AgentConfig) (n : Nat) (ctx0 ctx1 : AgentContext),
      ctx0.events = [] → runFuelE cfg ctx0 n = .ok ctx1 →
      ctx1.events.map (fun e => e.state) = runTrace cfg ctx0 n) := by
  refine ⟨fun cfg ctx now ctx1 h1 h2 h => stepE_events h1 h2 h, ?_⟩
  intro cfg n ctx0 ctx1 hev hrun
  have htr := runFuelE_events_trace cfg n ctx0 ctx1 hrun
  rw [hev] at htr
  simpa using htr

/-- C10: in every run started from `Planning`, no iteration raises: the
plan and report are present whenever `Validation` is the state, and the
validation result is present whenever `HumanReview` or `Synthesis` is
the state, so the defensive raises are unreachable. -/
theorem stage_preconditions_hold (cfg : AgentConfig) (ctx0 : AgentContext)
    (hs : ctx0.state = .planning) (n : Nat) :
    ∃ ctx1, runFuelE cfg ctx0 n = .ok ctx1 ∧
      (ctx1.state = .validation →
        ctx1.research_plan.isSome = true ∧ ctx1.research_report.isSome = true) ∧
      ((ctx1.state = .human_review ∨ ctx1.state = .synthesis) →
        ctx1.validation_result.isSome = true) := by
  obtain ⟨ctx1, hrun, hI⟩ := runFuelE_inv cfg ctx0 n ctx0 (runInv_init hs)
  refine ⟨ctx1, hrun, ?_, ?_⟩
  · intro hv
    refine ⟨hI.plan_some (by rw [hv]; intro h; cases h), ?_⟩
    obtain ⟨p, t, t1, hr⟩ := hI.report_shape (Or.inl hv)
    simp [hr]
  · intro h
    refine hI.validation_some ?_
    rcases h with h | h
    · exact Or.inl h
    · exact Or.inr (Or.inl h)

/-- Witness for C1 at the concrete context and configuration. -/
theorem retry_counter_bounded_witness :
    witness_context.state = .planning ∧
    witness_context.research_retry_count = 0 ∧
    (0 : Int) ≤ witness_config.max_research_retries ∧
    (∀ (n : Nat) (ctx1 : AgentContext),
      runFuelE witness_config witness_context n = .ok ctx1 →
      ctx1.research_retry_count ≤ witness_config.max_research_retries) :=
  ⟨rfl, rfl, by decide,
    (retry_counter_bounded witness_config witness_context rfl rfl (by decide)).1⟩

/-- Witness for C2 at the concrete context and configuration. -/
theorem run_reaches_terminal_witness :
    witness_context.state = .planning ∧
    (0 : Int) ≤ witness_config.max_research_retries ∧
    (∃ ctx1, runFuelE witness_config witness_context
        (meas witness_config witness_context) = .ok ctx1 ∧
      (ctx1.state = .completed ∨ ctx1.state = .failed) ∧
      (ctx1.state = .completed →
        ∃ t m, _synthesize_mrd ctx1.research_report ctx1.validation_result
            ctx1.user_input t = .ok m ∧ ctx1.final_mrd = some m) ∧
      (ctx1.state = .failed → ctx1.final_mrd = witness_context.final_mrd)) :=
  ⟨rfl, by decide, run_reaches_terminal witness_config witness_context rfl (by decide)⟩

/-- Witness for C3 at a concrete report missing the `Regulation` domain. -/
theorem missing_domain_yields_retry_witness :
    ResearchDomain.regulation ∈ c3_plan.research_domains ∧
    dictContains (buildSectionMap c3_report.sections) .regulation = false ∧
    (∃ res, _validate_research (some c3_report) (some c3_plan) 7 = .ok res ∧
      res.status = .retry ∧ res.status ≠ .pass ∧ res.status ≠ .fail ∧
      res.overall_confidence = 0 ∧
      (∀ issue ∈ res.issues, issue.level = "error") ∧
      res.issues.length = (c3_plan.research_domains.filter
        (fun d0 => ¬ dictContains (buildSectionMap c3_report.sections) d0)).length ∧
      0 < res.issues.length) :=
  ⟨by decide, rfl,
    missing_domain_yields_retry c3_report c3_plan 7 .regulation (by decide) rfl⟩

/-- Witness for the amended C4 at a concrete report whose last
`Regulation` section has confidence 0.5. -/
theorem regulation_gate_last_section_witness :
    missing_domain_issues c4_witness_report c4_plan = [] ∧
    (c4_witness_report.sections.filter
      (fun s => s.domain = ResearchDomain.regulation)).getLast? =
      some { domain := .regulation, findings := [], overall_confidence := 5/10 } ∧
    ((5 : ℚ)/10 < 6/10) ∧
    (∃ res, _validate_research (some c4_witness_report) (some c4_plan) 7 = .ok res ∧
      res.status = .human_review) :=
  ⟨rfl, rfl, by norm_num,
    regulation_gate_last_section c4_witness_report c4_plan 7
      { domain := .regulation, findings := [], overall_confidence := 5/10 }
      rfl rfl (by norm_num)⟩

/-- Witness for C5 at a concrete two-section report. -/
theorem overall_confidence_unweighted_mean_witness :
    c5_report.sections.Pairwise (fun a b => a.domain ≠ b.domain) ∧
    missing_domain_issues c5_report c5_plan = [] ∧
    c5_report.sections ≠ [] ∧
    (∃ res, _validate_research (some c5_report) (some c5_plan) 7 = .ok res ∧
      res.overall_confidence =
        (c5_report.sections.map (fun s => s.overall_confidence)).sum /
          (c5_report.sections.length : ℚ) ∧
      ((res.status = .retry ∨ res.status = .pass) →
        (res.status = .retry ↔
          res.overall_confidence < c5_plan.minimum_overall_confidence))) :=
  ⟨by simp [c5_report], rfl, by simp [c5_report],
    overall_confidence_unweighted_mean c5_report c5_plan 7
      (by simp [c5_report]) rfl (by simp [c5_report])⟩

/-- Witness for C6 at a concrete validation result. -/
theorem reviewer_approval_iff_witness :
    ∃ d, _get_human_decision (some c6_validation) witness_config 9 = .ok d ∧
      (d.approved = true ↔ (witness_config.default_min_overall_confidence ≤
          c6_validation.overall_confidence ∧
        ∀ issue ∈ c6_validation.issues, issue.level ≠ "critical")) ∧
      d.notes = (if d.approved then
          "Approved based on sufficient confidence and no critical risks"
        else "Rejected due to low confidence or critical risks") ∧
      d.reviewer = "simulated_human" :=
  reviewer_approval_iff c6_validation witness_config 9

/-- Witness for C7: one concrete step from `Planning`, and the trace
equation for the zero-length run. -/
theorem audit_log_mirrors_transitions_witness :
    witness_context.state ≠ .completed ∧
    witness_context.state ≠ .failed ∧
    stepE witness_config witness_context 0 =
      .ok (_handle_planning witness_config witness_context 0) ∧
    (∃ e : AgentEvent,
      (_handle_planning witness_config witness_context 0).events =
        witness_context.events ++ [e] ∧
      e.state = (_handle_planning witness_config witness_context 0).state) ∧
    witness_context.events = [] ∧
    witness_context.events.map (fun e => e.state) =
      runTrace witness_config witness_context 0 :=
  ⟨by decide, by decide, rfl,
    audit_log_mirrors_transitions.1 witness_config witness_context 0 _
      (by decide) (by decide) rfl,
    rfl,
    audit_log_mirrors_transitions.2 witness_config 0 witness_context witness_context rfl rfl⟩

/-- Witness for C8 at the fixed research report. -/
theorem synthesis_deterministic_witness :
    dictGet (buildSectionMap c8_report.sections) .competition =
      some (competition_section witness_plan 0) ∧
    (_synthesize_mrd (some c8_report) (some c8_validation) "obj" 3).isOk = true ∧
    ((_synthesize_mrd (some c8_report) (some c8_validation) "obj" 3).map
        (fun m => m.gap_analysis.identified_gaps.map (fun g => g.gap_description)) =
      .ok ((competition_section witness_plan 0).findings.map (fun f => f.finding)) ∧
    (_synthesize_mrd (some c8_report) (some c8_validation) "obj" 3).map
        (fun m => m.strategic_recommendations.features.map (fun fr => fr.feature)) =
      .ok ((competition_section witness_plan 0).findings.map (fun f => f.finding)) ∧
    (_synthesize_mrd (some c8_report) (some c8_validation) "obj" 3).map
        (fun m => (m.gap_analysis.identified_gaps.length,
          m.strategic_recommendations.features.length)) =
      .ok ((competition_section witness_plan 0).findings.length,
        (competition_section witness_plan 0).findings.length)) ∧
    (_synthesize_mrd (some c8_report) (some c8_validation) "obj" 3).map eraseGeneratedAt =
      (_synthesize_mrd (some c8_report) (some c8_validation) "obj" 8).map eraseGeneratedAt :=
  ⟨rfl, rfl,
    synthesis_deterministic.2 c8_report c8_validation "obj" 3
      (competition_section witness_plan 0) rfl rfl,
    synthesis_deterministic.1 (some c8_report) (some c8_validation) "obj" 3 8⟩

/-- Witness for C9 at the concrete plan. -/
theorem tool_results_reflect_adapter_witness :
    (∀ r ∈ research_tool_results witness_plan 4, r.status = ToolStatus.success ∧
      r.error_message = none ∧ r.data.isSome = true) ∧
    (sensor_tool_result witness_plan 4).data =
      some (search_sensor_tower witness_plan.primary_app) ∧
    (sentiment_tool_result 4).data = some (analyze_sentiment "TikTok") ∧
    (regulatory_tool_result 4).data = some (check_regulatory_compliance "UK/EU") ∧
    (∀ report, _run_research (some witness_plan) 4 = .ok report →
      ∀ sec ∈ report.sections, ∀ f ∈ sec.findings, ∀ r ∈ f.supporting_data,
        r.status = ToolStatus.success ∧ r.error_message = none ∧ r.data.isSome = true) :=
  tool_results_reflect_adapter witness_plan 4

/-- Witness for C10 at the concrete context, configuration and a
five-step run. -/
theorem stage_preconditions_hold_witness :
    witness_context.state = .planning ∧
    (∃ ctx1, runFuelE witness_config witness_context 5 = .ok ctx1 ∧
      (ctx1.state = .validation →
        ctx1.research_plan.isSome = true ∧ ctx1.research_report.isSome = true) ∧
      ((ctx1.state = .human_review ∨ ctx1.state = .synthesis) →
        ctx1.validation_result.isSome = true)) :=
  ⟨rfl, stage_preconditions_hold witness_config witness_context rfl 5⟩
